import Mathlib

/-!
Verification of the command-cert-manager-issuer bootstrap (src/main.go) and of
the CertificateRequest reconciliation invariants described in the design
document. The bootstrap is embedded as a deterministic trace semantics: the
process flags and the results of every external call (namespace discovery,
config-client construction, manager construction, controller registration,
health-check registration, manager run) are inputs, and `runMain` returns the
exit code, the ordered event trace, and the reconciler records constructed on
the way, exactly following the control flow of `main`.
-/

namespace CommandIssuer

/-- Process flags registered in `main` via `flag.StringVar` / `flag.BoolVar`.
`defaultFlags` captures the registered default of each flag. -/
structure Flags where
  metricsAddr : String
  probeAddr : String
  enableLeaderElection : Bool
  clusterResourceNamespace : String
  printVersion : Bool
  disableApprovedCheck : Bool
  secretAccessGrantedAtClusterLevel : Bool
deriving Repr, DecidableEq

/-- The default value of every flag, as registered in `main`. -/
def defaultFlags : Flags :=
  { metricsAddr := ":8080"
    probeAddr := ":8081"
    enableLeaderElection := false
    clusterResourceNamespace := ""
    printVersion := false
    disableApprovedCheck := false
    secretAccessGrantedAtClusterLevel := false }

/-- Result of `util.GetInClusterNamespace`: `main` distinguishes
`util.ErrNotInCluster` from other errors only in the log message. -/
inductive NsError
  | errNotInCluster
  | otherError (msg : String)
deriving Repr, DecidableEq

/-- The config client returned by `util.NewConfigClient`; the Go zero value of
the interface (kept by `main` when construction fails) is `nilClient`. -/
inductive ConfigClient
  | nilClient
  | client (id : Nat)
deriving Repr, DecidableEq

/-- Handle for the controller-runtime manager returned by `ctrl.NewManager`;
`client` and `scheme` stand for `mgr.GetClient()` and `mgr.GetScheme()`. -/
structure Manager where
  client : Nat
  scheme : Nat
deriving Repr, DecidableEq

/-- `metricsserver.Options` as built in `main`. -/
structure MetricsOptions where
  BindAddress : String
deriving Repr, DecidableEq

/-- The `ctrl.Options` literal passed to `ctrl.NewManager` in `main`. -/
structure ManagerOptions where
  Scheme : Nat
  Metrics : MetricsOptions
  WebhookPort : Nat
  HealthProbeBindAddress : String
  LeaderElection : Bool
  LeaderElectionID : String
deriving Repr, DecidableEq

/-- Handle for the package-level scheme populated by `init`. -/
def globalScheme : Nat := 0

/-- The options record `main` hands to `ctrl.NewManager`: the metrics bind
address and health-probe bind address come straight from the flags, the
webhook server is created with port 9443. -/
def mgrOptions (fl : Flags) : ManagerOptions :=
  { Scheme := globalScheme
    Metrics := { BindAddress := fl.metricsAddr }
    WebhookPort := 9443
    HealthProbeBindAddress := fl.probeAddr
    LeaderElection := fl.enableLeaderElection
    LeaderElectionID := "b68cef20.keyfactor.com" }

/-- Identifier of the health-checker factory function passed by `main`. -/
inductive HealthCheckerBuilderId
  | commandHealthCheckerFromIssuerAndSecretData
deriving Repr, DecidableEq

/-- Identifier of the signer factory function passed by `main`. -/
inductive SignerBuilderId
  | commandSignerFromIssuerAndSecretData
deriving Repr, DecidableEq

/-- Identifier of the clock implementation passed by `main`. -/
inductive ClockId
  | realClock
deriving Repr, DecidableEq

/-- `controllers.IssuerReconciler` struct literal as filled in by `main`. -/
structure IssuerReconciler where
  Kind : String
  Client : Nat
  ConfigClient : ConfigClient
  Scheme : Nat
  ClusterResourceNamespace : String
  SecretAccessGrantedAtClusterLevel : Bool
  HealthCheckerBuilder : HealthCheckerBuilderId
deriving Repr, DecidableEq

/-- `controllers.CertificateRequestReconciler` struct literal as filled in by
`main`. -/
structure CertificateRequestReconciler where
  Client : Nat
  Scheme : Nat
  ConfigClient : ConfigClient
  ClusterResourceNamespace : String
  SignerBuilder : SignerBuilderId
  CheckApprovedCondition : Bool
  SecretAccessGrantedAtClusterLevel : Bool
  Clock : ClockId
deriving Repr, DecidableEq

/-- The Issuer reconciler literal of `main` (Kind "Issuer"). -/
def issuerReconcilerOf (mgr : Manager) (cc : ConfigClient) (ns : String)
    (fl : Flags) : IssuerReconciler :=
  { Kind := "Issuer"
    Client := mgr.client
    ConfigClient := cc
    Scheme := mgr.scheme
    ClusterResourceNamespace := ns
    SecretAccessGrantedAtClusterLevel := fl.secretAccessGrantedAtClusterLevel
    HealthCheckerBuilder :=
      HealthCheckerBuilderId.commandHealthCheckerFromIssuerAndSecretData }

/-- The ClusterIssuer reconciler literal of `main` (Kind "ClusterIssuer"). -/
def clusterIssuerReconcilerOf (mgr : Manager) (cc : ConfigClient) (ns : String)
    (fl : Flags) : IssuerReconciler :=
  { Kind := "ClusterIssuer"
    Client := mgr.client
    ConfigClient := cc
    Scheme := mgr.scheme
    ClusterResourceNamespace := ns
    SecretAccessGrantedAtClusterLevel := fl.secretAccessGrantedAtClusterLevel
    HealthCheckerBuilder :=
      HealthCheckerBuilderId.commandHealthCheckerFromIssuerAndSecretData }

/-- The CertificateRequest reconciler literal of `main`. -/
def certificateRequestReconcilerOf (mgr : Manager) (cc : ConfigClient)
    (ns : String) (fl : Flags) : CertificateRequestReconciler :=
  { Client := mgr.client
    Scheme := mgr.scheme
    ConfigClient := cc
    ClusterResourceNamespace := ns
    SignerBuilder := SignerBuilderId.commandSignerFromIssuerAndSecretData
    CheckApprovedCondition := !fl.disableApprovedCheck
    SecretAccessGrantedAtClusterLevel := fl.secretAccessGrantedAtClusterLevel
    Clock := ClockId.realClock }

/-- A health/readiness checker value. `healthz.Ping` is the only checker
`main` registers; per its library definition it ignores the request and
returns no error. -/
inductive Checker
  | ping
deriving Repr, DecidableEq

/-- Running a checker on a request. `healthz.Ping` always returns nil
(success), holding no reconciliation state. -/
def runChecker : Checker → Unit → Option String
  | Checker.ping, _ => none

/-- Observable events of a `main` run, in program order. -/
inductive Event
  | nsAutoDiscovered (ns : String)
  | nsDiscoveryFailed
  | configClientError
  | managerCreated
  | managerCreateFailed
  | controllerRegistered (name : String)
  | controllerRegisterFailed (name : String)
  | healthzCheckRegistered (name : String) (c : Checker)
  | healthzRegisterFailed
  | readyzCheckRegistered (name : String) (c : Checker)
  | readyzRegisterFailed
  | managerStarted
  | managerRunFailed
deriving Repr, DecidableEq

/-- The environment of external calls `main` makes, with their results. -/
structure Ext where
  getInClusterNamespace : Except NsError String
  newConfigClient : Except String ConfigClient
  newManager : ManagerOptions → Except String Manager
  setupIssuer : IssuerReconciler → Option String
  setupCertificateRequest : CertificateRequestReconciler → Option String
  addHealthzCheck : String → Checker → Option String
  addReadyzCheck : String → Checker → Option String
  startManager : Option String

/-- The cluster-resource namespace `main` ends up with: the flag value when
set, otherwise the result of `util.GetInClusterNamespace`. -/
def resolveClusterResourceNamespace (fl : Flags) (ext : Ext) :
    Except NsError String :=
  if fl.clusterResourceNamespace = "" then ext.getInClusterNamespace
  else Except.ok fl.clusterResourceNamespace

/-- The config client `main` keeps: the constructed one on success, the Go
zero value when `util.NewConfigClient` returned an error (the error is only
logged). -/
def configClientOf (ext : Ext) : ConfigClient :=
  match ext.newConfigClient with
  | Except.error _ => ConfigClient.nilClient
  | Except.ok c => c

/-- Event emitted for the namespace-resolution step on the success path. -/
def nsEventsOf (fl : Flags) (ns : String) : List Event :=
  if fl.clusterResourceNamespace = "" then [Event.nsAutoDiscovered ns] else []

/-- Event emitted for the config-client step (an error is logged only). -/
def ccEventsOf (ext : Ext) : List Event :=
  match ext.newConfigClient with
  | Except.error _ => [Event.configClientError]
  | Except.ok _ => []

/-- Events preceding the manager-construction outcome on the success path. -/
def preEvents (fl : Flags) (ext : Ext) (ns : String) : List Event :=
  nsEventsOf fl ns ++ ccEventsOf ext

/-- Result of a `main` run: the exit code, the event trace, the namespace in
use, the options handed to `ctrl.NewManager` (if reached), the reconciler
literals constructed (if reached), and everything written to stdout.
`main` contains no stdout write at all: the `printVersion` flag variable is
declared and parsed but never read afterwards. -/
structure MainResult where
  exitCode : Nat
  events : List Event
  usedNamespace : Option String
  managerOptionsRequested : Option ManagerOptions
  issuerReconciler : Option IssuerReconciler
  clusterIssuerReconciler : Option IssuerReconciler
  certificateRequestReconciler : Option CertificateRequestReconciler
  stdout : List String
deriving Repr, DecidableEq

/-- Outcome when namespace resolution fails: log and `os.Exit(1)` before any
manager work. -/
def failNsResult : MainResult :=
  { exitCode := 1
    events := [Event.nsDiscoveryFailed]
    usedNamespace := none
    managerOptionsRequested := none
    issuerReconciler := none
    clusterIssuerReconciler := none
    certificateRequestReconciler := none
    stdout := [] }

/-- Outcome when `ctrl.NewManager` fails. -/
def failMgrResult (fl : Flags) (ext : Ext) (ns : String) : MainResult :=
  { exitCode := 1
    events := preEvents fl ext ns ++ [Event.managerCreateFailed]
    usedNamespace := some ns
    managerOptionsRequested := some (mgrOptions fl)
    issuerReconciler := none
    clusterIssuerReconciler := none
    certificateRequestReconciler := none
    stdout := [] }

/-- Outcome when registering the Issuer controller fails. -/
def failSetupIssuerResult (fl : Flags) (ext : Ext) (ns : String)
    (mgr : Manager) : MainResult :=
  { exitCode := 1
    events := preEvents fl ext ns ++
      [Event.managerCreated, Event.controllerRegisterFailed "Issuer"]
    usedNamespace := some ns
    managerOptionsRequested := some (mgrOptions fl)
    issuerReconciler := some (issuerReconcilerOf mgr (configClientOf ext) ns fl)
    clusterIssuerReconciler := none
    certificateRequestReconciler := none
    stdout := [] }

/-- Outcome when registering the ClusterIssuer controller fails. -/
def failSetupClusterIssuerResult (fl : Flags) (ext : Ext) (ns : String)
    (mgr : Manager) : MainResult :=
  { exitCode := 1
    events := preEvents fl ext ns ++
      [Event.managerCreated, Event.controllerRegistered "Issuer",
       Event.controllerRegisterFailed "ClusterIssuer"]
    usedNamespace := some ns
    managerOptionsRequested := some (mgrOptions fl)
    issuerReconciler := some (issuerReconcilerOf mgr (configClientOf ext) ns fl)
    clusterIssuerReconciler :=
      some (clusterIssuerReconcilerOf mgr (configClientOf ext) ns fl)
    certificateRequestReconciler := none
    stdout := [] }

/-- Outcome when registering the CertificateRequest controller fails. -/
def failSetupCertReqResult (fl : Flags) (ext : Ext) (ns : String)
    (mgr : Manager) : MainResult :=
  { exitCode := 1
    events := preEvents fl ext ns ++
      [Event.managerCreated, Event.controllerRegistered "Issuer",
       Event.controllerRegistered "ClusterIssuer",
       Event.controllerRegisterFailed "CertificateRequest"]
    usedNamespace := some ns
    managerOptionsRequested := some (mgrOptions fl)
    issuerReconciler := some (issuerReconcilerOf mgr (configClientOf ext) ns fl)
    clusterIssuerReconciler :=
      some (clusterIssuerReconcilerOf mgr (configClientOf ext) ns fl)
    certificateRequestReconciler :=
      some (certificateRequestReconcilerOf mgr (configClientOf ext) ns fl)
    stdout := [] }

/-- Events once all three controllers are registered. -/
def regEvents (fl : Flags) (ext : Ext) (ns : String) : List Event :=
  preEvents fl ext ns ++
    [Event.managerCreated, Event.controllerRegistered "Issuer",
     Event.controllerRegistered "ClusterIssuer",
     Event.controllerRegistered "CertificateRequest"]

/-- Outcome when `mgr.AddHealthzCheck` fails. -/
def failHealthzResult (fl : Flags) (ext : Ext) (ns : String)
    (mgr : Manager) : MainResult :=
  { exitCode := 1
    events := regEvents fl ext ns ++ [Event.healthzRegisterFailed]
    usedNamespace := some ns
    managerOptionsRequested := some (mgrOptions fl)
    issuerReconciler := some (issuerReconcilerOf mgr (configClientOf ext) ns fl)
    clusterIssuerReconciler :=
      some (clusterIssuerReconcilerOf mgr (configClientOf ext) ns fl)
    certificateRequestReconciler :=
      some (certificateRequestReconcilerOf mgr (configClientOf ext) ns fl)
    stdout := [] }

/-- Outcome when `mgr.AddReadyzCheck` fails. -/
def failReadyzResult (fl : Flags) (ext : Ext) (ns : String)
    (mgr : Manager) : MainResult :=
  { exitCode := 1
    events := regEvents fl ext ns ++
      [Event.healthzCheckRegistered "healthz" Checker.ping,
       Event.readyzRegisterFailed]
    usedNamespace := some ns
    managerOptionsRequested := some (mgrOptions fl)
    issuerReconciler := some (issuerReconcilerOf mgr (configClientOf ext) ns fl)
    clusterIssuerReconciler :=
      some (clusterIssuerReconcilerOf mgr (configClientOf ext) ns fl)
    certificateRequestReconciler :=
      some (certificateRequestReconcilerOf mgr (configClientOf ext) ns fl)
    stdout := [] }

/-- Outcome when `mgr.Start` returns an error. -/
def failStartResult (fl : Flags) (ext : Ext) (ns : String)
    (mgr : Manager) : MainResult :=
  { exitCode := 1
    events := regEvents fl ext ns ++
      [Event.healthzCheckRegistered "healthz" Checker.ping,
       Event.readyzCheckRegistered "readyz" Checker.ping,
       Event.managerStarted, Event.managerRunFailed]
    usedNamespace := some ns
    managerOptionsRequested := some (mgrOptions fl)
    issuerReconciler := some (issuerReconcilerOf mgr (configClientOf ext) ns fl)
    clusterIssuerReconciler :=
      some (clusterIssuerReconcilerOf mgr (configClientOf ext) ns fl)
    certificateRequestReconciler :=
      some (certificateRequestReconcilerOf mgr (configClientOf ext) ns fl)
    stdout := [] }

/-- Outcome of a graceful run: `mgr.Start` returned nil and `main` returns,
so the process exits 0. -/
def successResult (fl : Flags) (ext : Ext) (ns : String)
    (mgr : Manager) : MainResult :=
  { exitCode := 0
    events := regEvents fl ext ns ++
      [Event.healthzCheckRegistered "healthz" Checker.ping,
       Event.readyzCheckRegistered "readyz" Checker.ping,
       Event.managerStarted]
    usedNamespace := some ns
    managerOptionsRequested := some (mgrOptions fl)
    issuerReconciler := some (issuerReconcilerOf mgr (configClientOf ext) ns fl)
    clusterIssuerReconciler :=
      some (clusterIssuerReconcilerOf mgr (configClientOf ext) ns fl)
    certificateRequestReconciler :=
      some (certificateRequestReconcilerOf mgr (configClientOf ext) ns fl)
    stdout := [] }

/-- Trace semantics of `main` (src/main.go lines 63 to 201), following its
control flow step by step: namespace resolution (exit 1 on failure),
config-client construction (error logged only), manager construction
(exit 1 on failure), registration of the Issuer, ClusterIssuer and
CertificateRequest controllers (exit 1 on the first failure), healthz and
readyz check registration with `healthz.Ping` (exit 1 on failure), then
`mgr.Start` (exit 1 on error, otherwise return, hence exit 0). The
`printVersion` flag is never consulted by `main`, so no branch below reads
`fl.printVersion`. -/
def runMain (fl : Flags) (ext : Ext) : MainResult :=
  match resolveClusterResourceNamespace fl ext with
  | Except.error _ => failNsResult
  | Except.ok ns =>
    match ext.newManager (mgrOptions fl) with
    | Except.error _ => failMgrResult fl ext ns
    | Except.ok mgr =>
      match ext.setupIssuer (issuerReconcilerOf mgr (configClientOf ext) ns fl) with
      | some _ => failSetupIssuerResult fl ext ns mgr
      | none =>
        match ext.setupIssuer
            (clusterIssuerReconcilerOf mgr (configClientOf ext) ns fl) with
        | some _ => failSetupClusterIssuerResult fl ext ns mgr
        | none =>
          match ext.setupCertificateRequest
              (certificateRequestReconcilerOf mgr (configClientOf ext) ns fl) with
          | some _ => failSetupCertReqResult fl ext ns mgr
          | none =>
            match ext.addHealthzCheck "healthz" Checker.ping with
            | some _ => failHealthzResult fl ext ns mgr
            | none =>
              match ext.addReadyzCheck "readyz" Checker.ping with
              | some _ => failReadyzResult fl ext ns mgr
              | none =>
                match ext.startManager with
                | some _ => failStartResult fl ext ns mgr
                | none => successResult fl ext ns mgr

/-- Modelled from the spec: reason of the `Ready` condition of a
CertificateRequest (spec section 4.2); the reconciler implementation lives in
`internal/controllers`, which is not part of the visible source. -/
inductive ConditionReason
  | pending
  | issued
  | denied
  | failed
  | issuerNotReady
  | secretNotFound
deriving Repr, DecidableEq

/-- Modelled from the spec: the status subresource of a CertificateRequest —
the `Ready` condition (status value and reason) and the certificate payload
written on success (spec section 3). -/
structure CertificateRequestStatus where
  ready : Option (Bool × ConditionReason)
  certificate : Option (List Nat)
  ca : Option (List Nat)
deriving Repr, DecidableEq

/-- Modelled from the spec: the externally managed approval condition that the
reconciler only reads (spec sections 3 and 4.2). -/
inductive ApprovalState
  | approved
  | denied
  | absent
deriving Repr, DecidableEq

/-- Modelled from the spec: outcome of one Signer invocation — a signed
certificate chain, a transient error, or a permanent rejection
(spec sections 2 and 4.2 step 5). -/
inductive SignOutcome
  | signed (cert ca : List Nat)
  | transientError (msg : String)
  | permanentError (msg : String)
deriving Repr, DecidableEq

/-- Modelled from the spec: everything one reconcile pass reads from the
outside — the approval condition, whether the referenced Issuer is Ready,
whether the secret resolved, and what the Signer would answer. -/
structure ReconcileReads where
  approval : ApprovalState
  issuerReady : Bool
  secretResolved : Bool
  signOutcome : SignOutcome
deriving Repr, DecidableEq

/-- Modelled from the spec: the requeue decision of a reconcile pass. -/
inductive Requeue
  | no
  | backoff
deriving Repr, DecidableEq

/-- Modelled from the spec: result of one reconcile pass — the new status,
whether the Signer was invoked at all, whether `status.certificate` was
written, and the requeue decision. -/
structure ReconcileOutcome where
  status : CertificateRequestStatus
  signerInvoked : Bool
  certificateWritten : Bool
  requeue : Requeue
deriving Repr, DecidableEq

/-- Modelled from the spec: terminal states of a CertificateRequest —
`Ready=True,reason=Issued`, or `Ready=False` with reason `Denied` or
`Failed` (spec sections 4.2 steps 1 and 5, and section 8 idempotence). -/
def isTerminal (st : CertificateRequestStatus) : Bool :=
  match st.ready with
  | some (true, ConditionReason.issued) => true
  | some (false, ConditionReason.denied) => true
  | some (false, ConditionReason.failed) => true
  | _ => false

/-- Modelled from the spec: one reconcile pass of the
CertificateRequestReconciler (spec section 4.2, not in the visible source):
terminal check, approval gate (when `CheckApprovedCondition` holds), Issuer
readiness check, secret resolution, then Signer invocation with
transient/permanent/success classification. -/
def reconcileCertificateRequest (checkApproved : Bool)
    (st : CertificateRequestStatus) (r : ReconcileReads) : ReconcileOutcome :=
  if isTerminal st then
    { status := st, signerInvoked := false, certificateWritten := false
      requeue := Requeue.no }
  else if checkApproved && (r.approval == ApprovalState.absent) then
    { status := st, signerInvoked := false, certificateWritten := false
      requeue := Requeue.no }
  else if checkApproved && (r.approval == ApprovalState.denied) then
    { status := { st with ready := some (false, ConditionReason.denied) }
      signerInvoked := false, certificateWritten := false
      requeue := Requeue.no }
  else if !r.issuerReady then
    { status := { st with ready := some (false, ConditionReason.issuerNotReady) }
      signerInvoked := false, certificateWritten := false
      requeue := Requeue.backoff }
  else if !r.secretResolved then
    { status := { st with ready := some (false, ConditionReason.secretNotFound) }
      signerInvoked := false, certificateWritten := false
      requeue := Requeue.no }
  else
    match r.signOutcome with
    | SignOutcome.transientError _ =>
        { status := { st with ready := some (false, ConditionReason.pending) }
          signerInvoked := true, certificateWritten := false
          requeue := Requeue.backoff }
    | SignOutcome.permanentError _ =>
        { status := { st with ready := some (false, ConditionReason.failed) }
          signerInvoked := true, certificateWritten := false
          requeue := Requeue.no }
    | SignOutcome.signed cert ca =>
        { status := { st with ready := some (true, ConditionReason.issued)
                              certificate := some cert, ca := some ca }
          signerInvoked := true, certificateWritten := true
          requeue := Requeue.no }

/-- Modelled from the spec: a sequence of reconcile passes over one
CertificateRequest, returning the final status and the number of successful
Signer invocations that resulted in a written `status.certificate`. -/
def runReconciles (checkApproved : Bool) (st : CertificateRequestStatus) :
    List ReconcileReads → CertificateRequestStatus × Nat
  | [] => (st, 0)
  | r :: rs =>
      let o := reconcileCertificateRequest checkApproved st r
      let rest := runReconciles checkApproved o.status rs
      (rest.1, (if o.certificateWritten then 1 else 0) + rest.2)

/-- The events that correspond to a fatal setup or run error, i.e. exactly the
code paths of `main` that call `os.Exit(1)`. -/
def fatalEvent : Event → Bool
  | Event.nsDiscoveryFailed => true
  | Event.managerCreateFailed => true
  | Event.controllerRegisterFailed _ => true
  | Event.healthzRegisterFailed => true
  | Event.readyzRegisterFailed => true
  | Event.managerRunFailed => true
  | _ => false

/-! Concrete environments used by witnesses. -/

/-- Environment where every external call succeeds. -/
def extOk : Ext :=
  { getInClusterNamespace := Except.ok "discovered-ns"
    newConfigClient := Except.ok (ConfigClient.client 7)
    newManager := fun _ => Except.ok { client := 1, scheme := 2 }
    setupIssuer := fun _ => none
    setupCertificateRequest := fun _ => none
    addHealthzCheck := fun _ _ => none
    addReadyzCheck := fun _ _ => none
    startManager := none }

/-- Environment where in-cluster namespace discovery fails with
`ErrNotInCluster` while everything else would succeed. -/
def extNsFail : Ext :=
  { extOk with getInClusterNamespace := Except.error NsError.errNotInCluster }

/-- Environment where config-client construction fails while everything else
succeeds. -/
def extCcFail : Ext :=
  { extOk with newConfigClient := Except.error "connection refused" }

/-- A CertificateRequest status already recorded as issued, used to
instantiate the idempotence theorems on a concrete input. -/
def issuedStatus : CertificateRequestStatus :=
  { ready := some (true, ConditionReason.issued)
    certificate := some [1]
    ca := some [2] }

/-- A fresh CertificateRequest status (no conditions, no certificate). -/
def freshStatus : CertificateRequestStatus :=
  { ready := none, certificate := none, ca := none }

/-- A reconcile environment where every check passes and signing succeeds. -/
def readsOk : ReconcileReads :=
  { approval := ApprovalState.approved
    issuerReady := true
    secretResolved := true
    signOutcome := SignOutcome.signed [3] [4] }

/-! Helper lemmas about the trace semantics of `main`. -/

lemma mem_preEvents {fl : Flags} {ext : Ext} {ns : String} {e : Event}
    (h : e ∈ preEvents fl ext ns) :
    (∃ s, e = Event.nsAutoDiscovered s) ∨ e = Event.configClientError := by
  unfold preEvents nsEventsOf ccEventsOf at h
  rcases List.mem_append.mp h with h1 | h2
  · split at h1
    · simp only [List.mem_singleton] at h1
      exact Or.inl ⟨ns, h1⟩
    · simp at h1
  · rcases hcc : ext.newConfigClient with e' | c <;> rw [hcc] at h2 <;>
      simp only [List.mem_singleton, List.not_mem_nil] at h2
    exact Or.inr h2

lemma fatal_not_mem_preEvents {fl : Flags} {ext : Ext} {ns : String} {e : Event}
    (h : e ∈ preEvents fl ext ns) : fatalEvent e = false := by
  rcases mem_preEvents h with ⟨s, rfl⟩ | rfl <;> rfl

/-- Case analysis of `runMain`: every run hits exactly one of the nine
outcomes, matching the nine ways `main` can finish. -/
lemma runMain_cases (fl : Flags) (ext : Ext) :
    (∃ e, resolveClusterResourceNamespace fl ext = Except.error e ∧
      runMain fl ext = failNsResult) ∨
    (∃ ns, resolveClusterResourceNamespace fl ext = Except.ok ns ∧
      ((∃ e, ext.newManager (mgrOptions fl) = Except.error e ∧
          runMain fl ext = failMgrResult fl ext ns) ∨
       (∃ mgr, ext.newManager (mgrOptions fl) = Except.ok mgr ∧
          (runMain fl ext = failSetupIssuerResult fl ext ns mgr ∨
           runMain fl ext = failSetupClusterIssuerResult fl ext ns mgr ∨
           runMain fl ext = failSetupCertReqResult fl ext ns mgr ∨
           runMain fl ext = failHealthzResult fl ext ns mgr ∨
           runMain fl ext = failReadyzResult fl ext ns mgr ∨
           runMain fl ext = failStartResult fl ext ns mgr ∨
           runMain fl ext = successResult fl ext ns mgr)))) := by
  rcases hres : resolveClusterResourceNamespace fl ext with e | ns
  · exact Or.inl ⟨e, rfl, by simp only [runMain, hres]⟩
  · refine Or.inr ⟨ns, rfl, ?_⟩
    rcases hmgr : ext.newManager (mgrOptions fl) with e | mgr
    · exact Or.inl ⟨e, rfl, by simp only [runMain, hres, hmgr]⟩
    · refine Or.inr ⟨mgr, rfl, ?_⟩
      rcases hsi : ext.setupIssuer
          (issuerReconcilerOf mgr (configClientOf ext) ns fl) with _ | e
      case some =>
        exact Or.inl (by simp only [runMain, hres, hmgr, hsi])
      rcases hci : ext.setupIssuer
          (clusterIssuerReconcilerOf mgr (configClientOf ext) ns fl) with _ | e
      case some =>
        exact Or.inr (Or.inl (by simp only [runMain, hres, hmgr, hsi, hci]))
      rcases hcr : ext.setupCertificateRequest
          (certificateRequestReconcilerOf mgr (configClientOf ext) ns fl) with _ | e
      case some =>
        exact Or.inr (Or.inr (Or.inl
          (by simp only [runMain, hres, hmgr, hsi, hci, hcr])))
      rcases hhz : ext.addHealthzCheck "healthz" Checker.ping with _ | e
      case some =>
        exact Or.inr (Or.inr (Or.inr (Or.inl
          (by simp only [runMain, hres, hmgr, hsi, hci, hcr, hhz]))))
      rcases hrz : ext.addReadyzCheck "readyz" Checker.ping with _ | e
      case some =>
        exact Or.inr (Or.inr (Or.inr (Or.inr (Or.inl
          (by simp only [runMain, hres, hmgr, hsi, hci, hcr, hhz, hrz])))))
      rcases hst : ext.startManager with _ | e
      case some =>
        exact Or.inr (Or.inr (Or.inr (Or.inr (Or.inr (Or.inl
          (by simp only [runMain, hres, hmgr, hsi, hci, hcr, hhz, hrz, hst]))))))
      exact Or.inr (Or.inr (Or.inr (Or.inr (Or.inr (Or.inr
        (by simp only [runMain, hres, hmgr, hsi, hci, hcr, hhz, hrz, hst]))))))

lemma managerStarted_not_mem_preEvents (fl : Flags) (ext : Ext) (ns : String) :
    Event.managerStarted ∉ preEvents fl ext ns := by
  intro h
  rcases mem_preEvents h with ⟨s, hs⟩ | hs <;> cases hs

lemma issuer_shape (fl : Flags) (ext : Ext) (ir : IssuerReconciler)
    (hi : (runMain fl ext).issuerReconciler = some ir) :
    ∃ ns mgr, ir = issuerReconcilerOf mgr (configClientOf ext) ns fl := by
  rcases runMain_cases fl ext with ⟨e, hres, hrm⟩ |
    ⟨ns, hres, ⟨e, hmgr, hrm⟩ | ⟨mgr, hmgr, hrm | hrm | hrm | hrm | hrm | hrm | hrm⟩⟩ <;>
    rw [hrm] at hi <;>
    simp [failNsResult, failMgrResult, failSetupIssuerResult,
      failSetupClusterIssuerResult, failSetupCertReqResult, failHealthzResult,
      failReadyzResult, failStartResult, successResult] at hi <;>
    exact ⟨ns, mgr, hi.symm⟩

lemma clusterIssuer_shape (fl : Flags) (ext : Ext) (cir : IssuerReconciler)
    (hc : (runMain fl ext).clusterIssuerReconciler = some cir) :
    ∃ ns mgr, cir = clusterIssuerReconcilerOf mgr (configClientOf ext) ns fl := by
  rcases runMain_cases fl ext with ⟨e, hres, hrm⟩ |
    ⟨ns, hres, ⟨e, hmgr, hrm⟩ | ⟨mgr, hmgr, hrm | hrm | hrm | hrm | hrm | hrm | hrm⟩⟩ <;>
    rw [hrm] at hc <;>
    simp [failNsResult, failMgrResult, failSetupIssuerResult,
      failSetupClusterIssuerResult, failSetupCertReqResult, failHealthzResult,
      failReadyzResult, failStartResult, successResult] at hc <;>
    exact ⟨ns, mgr, hc.symm⟩

lemma certReq_shape (fl : Flags) (ext : Ext) (crr : CertificateRequestReconciler)
    (hr : (runMain fl ext).certificateRequestReconciler = some crr) :
    ∃ ns mgr, crr = certificateRequestReconcilerOf mgr (configClientOf ext) ns fl := by
  rcases runMain_cases fl ext with ⟨e, hres, hrm⟩ |
    ⟨ns, hres, ⟨e, hmgr, hrm⟩ | ⟨mgr, hmgr, hrm | hrm | hrm | hrm | hrm | hrm | hrm⟩⟩ <;>
    rw [hrm] at hr <;>
    simp [failNsResult, failMgrResult, failSetupIssuerResult,
      failSetupClusterIssuerResult, failSetupCertReqResult, failHealthzResult,
      failReadyzResult, failStartResult, successResult] at hr <;>
    exact ⟨ns, mgr, hr.symm⟩

lemma reconcilers_shape (fl : Flags) (ext : Ext) (ir cir : IssuerReconciler)
    (hi : (runMain fl ext).issuerReconciler = some ir)
    (hc : (runMain fl ext).clusterIssuerReconciler = some cir) :
    ∃ ns mgr, ir = issuerReconcilerOf mgr (configClientOf ext) ns fl
      ∧ cir = clusterIssuerReconcilerOf mgr (configClientOf ext) ns fl := by
  rcases runMain_cases fl ext with ⟨e, hres, hrm⟩ |
    ⟨ns, hres, ⟨e, hmgr, hrm⟩ | ⟨mgr, hmgr, hrm | hrm | hrm | hrm | hrm | hrm | hrm⟩⟩ <;>
    rw [hrm] at hi hc <;>
    simp [failNsResult, failMgrResult, failSetupIssuerResult,
      failSetupClusterIssuerResult, failSetupCertReqResult, failHealthzResult,
      failReadyzResult, failStartResult, successResult] at hi hc <;>
    exact ⟨ns, mgr, hi.symm, hc.symm⟩

lemma all_reconcilers_shape (fl : Flags) (ext : Ext) (ir cir : IssuerReconciler)
    (crr : CertificateRequestReconciler)
    (hi : (runMain fl ext).issuerReconciler = some ir)
    (hc : (runMain fl ext).clusterIssuerReconciler = some cir)
    (hr : (runMain fl ext).certificateRequestReconciler = some crr) :
    ∃ ns mgr, ir = issuerReconcilerOf mgr (configClientOf ext) ns fl
      ∧ cir = clusterIssuerReconcilerOf mgr (configClientOf ext) ns fl
      ∧ crr = certificateRequestReconcilerOf mgr (configClientOf ext) ns fl := by
  rcases runMain_cases fl ext with ⟨e, hres, hrm⟩ |
    ⟨ns, hres, ⟨e, hmgr, hrm⟩ | ⟨mgr, hmgr, hrm | hrm | hrm | hrm | hrm | hrm | hrm⟩⟩ <;>
    rw [hrm] at hi hc hr <;>
    simp [failNsResult, failMgrResult, failSetupIssuerResult,
      failSetupClusterIssuerResult, failSetupCertReqResult, failHealthzResult,
      failReadyzResult, failStartResult, successResult] at hi hc hr <;>
    exact ⟨ns, mgr, hi.symm, hc.symm, hr.symm⟩

lemma managerOptions_requested (fl : Flags) (ext : Ext) (ns : String)
    (hns : resolveClusterResourceNamespace fl ext = Except.ok ns) :
    (runMain fl ext).managerOptionsRequested = some (mgrOptions fl) := by
  rcases runMain_cases fl ext with ⟨e, hres, hrm⟩ |
    ⟨ns', hres, ⟨e, hmgr, hrm⟩ | ⟨mgr, hmgr, hrm | hrm | hrm | hrm | hrm | hrm | hrm⟩⟩ <;>
    rw [hrm] <;>
    first
      | rfl
      | (rw [hns] at hres; cases hres)

lemma exit_policy_of_fatal {res : MainResult} (h1 : res.exitCode = 1)
    (hB : ∃ e ∈ res.events, fatalEvent e = true) :
    (res.exitCode = 0 ∨ res.exitCode = 1)
    ∧ (res.exitCode = 1 ↔ ∃ e ∈ res.events, fatalEvent e = true)
    ∧ (res.exitCode = 0 ↔ Event.managerStarted ∈ res.events ∧
        ¬∃ e ∈ res.events, fatalEvent e = true) := by
  refine ⟨Or.inr h1, ⟨fun _ => hB, fun _ => h1⟩, ⟨fun h0 => ?_, fun h => absurd hB h.2⟩⟩
  rw [h1] at h0
  cases h0

lemma exit_policy_of_success {res : MainResult} (h0 : res.exitCode = 0)
    (hmem : Event.managerStarted ∈ res.events)
    (hnB : ¬∃ e ∈ res.events, fatalEvent e = true) :
    (res.exitCode = 0 ∨ res.exitCode = 1)
    ∧ (res.exitCode = 1 ↔ ∃ e ∈ res.events, fatalEvent e = true)
    ∧ (res.exitCode = 0 ↔ Event.managerStarted ∈ res.events ∧
        ¬∃ e ∈ res.events, fatalEvent e = true) := by
  refine ⟨Or.inl h0, ⟨fun h1 => ?_, fun hB => absurd hB hnB⟩,
    ⟨fun _ => ⟨hmem, hnB⟩, fun _ => h0⟩⟩
  rw [h0] at h1
  cases h1

lemma success_no_fatal (fl : Flags) (ext : Ext) (ns : String) (mgr : Manager) :
    ¬∃ e ∈ (successResult fl ext ns mgr).events, fatalEvent e = true := by
  rintro ⟨e, hmem, hf⟩
  simp only [successResult, regEvents, List.append_assoc, List.mem_append,
    List.mem_cons, List.not_mem_nil, or_false] at hmem
  rcases hmem with hpre | hrest
  · rw [fatal_not_mem_preEvents hpre] at hf
    cases hf
  · rcases hrest with (rfl | rfl | rfl | rfl) | (rfl | rfl | rfl) <;> cases hf

/-! Helper lemmas about the spec-modelled CertificateRequest reconciler. -/

lemma reconcile_issued_noop (c : Bool) (st : CertificateRequestStatus)
    (r : ReconcileReads) (h : st.ready = some (true, ConditionReason.issued)) :
    reconcileCertificateRequest c st r =
      { status := st, signerInvoked := false, certificateWritten := false
        requeue := Requeue.no } := by
  simp [reconcileCertificateRequest, isTerminal, h]

lemma reconcile_written_issued (c : Bool) (st : CertificateRequestStatus)
    (r : ReconcileReads) :
    (reconcileCertificateRequest c st r).certificateWritten = true →
      (reconcileCertificateRequest c st r).status.ready =
        some (true, ConditionReason.issued) := by
  unfold reconcileCertificateRequest
  split
  · intro h; simp at h
  · split
    · intro h; simp at h
    · split
      · intro h; simp at h
      · split
        · intro h; simp at h
        · split
          · intro h; simp at h
          · rcases r.signOutcome with ⟨cert, ca⟩ | m | m <;> intro h <;>
              simp_all

lemma runReconciles_issued (c : Bool) (rs : List ReconcileReads) :
    ∀ st : CertificateRequestStatus,
      st.ready = some (true, ConditionReason.issued) →
        runReconciles c st rs = (st, 0) := by
  induction rs with
  | nil => intro st h; rfl
  | cons r rs ih =>
      intro st h
      simp only [runReconciles]
      rw [reconcile_issued_noop c st r h]
      simp [ih st h]

lemma runReconciles_count_le_one (c : Bool) (rs : List ReconcileReads) :
    ∀ st : CertificateRequestStatus, (runReconciles c st rs).2 ≤ 1 := by
  induction rs with
  | nil => intro st; simp [runReconciles]
  | cons r rs ih =>
      intro st
      simp only [runReconciles]
      rcases hw : (reconcileCertificateRequest c st r).certificateWritten with _ | _
      · simpa [hw] using ih (reconcileCertificateRequest c st r).status
      · have hiss := reconcile_written_issued c st r hw
        rw [runReconciles_issued c rs _ hiss]
        simp [hw]

/-! The claims. -/

/-- Claim C1: the claim says that with the version flag set the process
prints the version to stdout and exits 0 with no further setup. The code
never consults the parsed `printVersion` variable: with the flag set and all
external calls succeeding, `main` writes nothing to stdout, builds the
manager options, constructs all reconcilers, starts the manager and the run
is identical to a run without the flag. -/
theorem version_flag_is_ignored :
    (runMain { defaultFlags with printVersion := true } extOk).stdout = []
    ∧ (runMain { defaultFlags with printVersion := true } extOk).exitCode = 0
    ∧ (runMain { defaultFlags with printVersion := true } extOk).managerOptionsRequested =
        some (mgrOptions { defaultFlags with printVersion := true })
    ∧ Event.managerStarted ∈
        (runMain { defaultFlags with printVersion := true } extOk).events
    ∧ (runMain { defaultFlags with printVersion := true } extOk).certificateRequestReconciler ≠
        none
    ∧ runMain { defaultFlags with printVersion := true } extOk =
        runMain defaultFlags extOk :=
  ⟨rfl, rfl, rfl, by decide, by decide, rfl⟩

/-- Claim C2: across any number of reconcile passes the number of successful
Signer invocations that write `status.certificate` is at most one, and once
`Ready=True,reason=Issued` is recorded every further reconcile performs no
signing attempt and no status change. -/
theorem at_most_once_issuance (c : Bool) (st : CertificateRequestStatus)
    (rs : List ReconcileReads) :
    (runReconciles c st rs).2 ≤ 1
    ∧ (st.ready = some (true, ConditionReason.issued) →
        runReconciles c st rs = (st, 0)
        ∧ ∀ r : ReconcileReads,
            (reconcileCertificateRequest c st r).signerInvoked = false
            ∧ (reconcileCertificateRequest c st r).status = st) := by
  refine ⟨runReconciles_count_le_one c rs st,
    fun h => ⟨runReconciles_issued c rs st h, fun r => ?_⟩⟩
  rw [reconcile_issued_noop c st r h]
  exact ⟨rfl, rfl⟩

/-- Witness for C2 at a concrete issued status and concrete reconcile runs. -/
theorem at_most_once_issuance_witness :
    issuedStatus.ready = some (true, ConditionReason.issued)
    ∧ (runReconciles true issuedStatus [readsOk, readsOk]).2 ≤ 1
    ∧ runReconciles true issuedStatus [readsOk, readsOk] = (issuedStatus, 0)
    ∧ (reconcileCertificateRequest true issuedStatus readsOk).signerInvoked = false := by
  have h := at_most_once_issuance true issuedStatus [readsOk, readsOk]
  exact ⟨rfl, h.1, (h.2 rfl).1, ((h.2 rfl).2 readsOk).1⟩

/-- Claim C3: with the cluster-resource-namespace flag unset, `main` asks the
in-cluster context for the namespace; if that fails (any error, including
not-in-cluster) the process exits 1 with the manager never constructed. -/
theorem ns_discovery_failure_exits_before_manager (fl : Flags) (ext : Ext)
    (e : NsError) (hflag : fl.clusterResourceNamespace = "")
    (herr : ext.getInClusterNamespace = Except.error e) :
    resolveClusterResourceNamespace fl ext = ext.getInClusterNamespace
    ∧ runMain fl ext = failNsResult
    ∧ (runMain fl ext).exitCode = 1
    ∧ (runMain fl ext).managerOptionsRequested = none
    ∧ Event.managerCreated ∉ (runMain fl ext).events
    ∧ (runMain fl ext).issuerReconciler = none := by
  have h1 : resolveClusterResourceNamespace fl ext = ext.getInClusterNamespace := by
    simp [resolveClusterResourceNamespace, hflag]
  have h2 : runMain fl ext = failNsResult := by
    simp only [runMain, h1, herr]
  rw [h2]
  exact ⟨h1, rfl, rfl, rfl, by decide, rfl⟩

/-- Witness for C3 with the default flags and a not-in-cluster discovery
error. -/
theorem ns_discovery_failure_witness :
    defaultFlags.clusterResourceNamespace = ""
    ∧ extNsFail.getInClusterNamespace = Except.error NsError.errNotInCluster
    ∧ (runMain defaultFlags extNsFail).exitCode = 1
    ∧ (runMain defaultFlags extNsFail).managerOptionsRequested = none := by
  have h := ns_discovery_failure_exits_before_manager defaultFlags extNsFail
    NsError.errNotInCluster rfl rfl
  exact ⟨rfl, rfl, h.2.2.1, h.2.2.2.1⟩

/-- Claim C4: the exit code is always 0 or 1; it is 1 exactly when a fatal
setup or run error occurred (namespace resolution, manager construction, any
of the three controller registrations, healthz or readyz registration,
manager run), and 0 exactly on a graceful run with no fatal error. -/
theorem exit_code_policy (fl : Flags) (ext : Ext) :
    ((runMain fl ext).exitCode = 0 ∨ (runMain fl ext).exitCode = 1)
    ∧ ((runMain fl ext).exitCode = 1 ↔
        ∃ e ∈ (runMain fl ext).events, fatalEvent e = true)
    ∧ ((runMain fl ext).exitCode = 0 ↔
        Event.managerStarted ∈ (runMain fl ext).events ∧
          ¬∃ e ∈ (runMain fl ext).events, fatalEvent e = true) := by
  rcases runMain_cases fl ext with ⟨e, hres, hrm⟩ |
    ⟨ns, hres, ⟨e, hmgr, hrm⟩ | ⟨mgr, hmgr, hrm | hrm | hrm | hrm | hrm | hrm | hrm⟩⟩ <;>
    rw [hrm]
  · exact exit_policy_of_fatal rfl
      ⟨Event.nsDiscoveryFailed, by simp [failNsResult], rfl⟩
  · exact exit_policy_of_fatal rfl
      ⟨Event.managerCreateFailed, by simp [failMgrResult], rfl⟩
  · exact exit_policy_of_fatal rfl
      ⟨Event.controllerRegisterFailed "Issuer", by simp [failSetupIssuerResult], rfl⟩
  · exact exit_policy_of_fatal rfl
      ⟨Event.controllerRegisterFailed "ClusterIssuer",
        by simp [failSetupClusterIssuerResult], rfl⟩
  · exact exit_policy_of_fatal rfl
      ⟨Event.controllerRegisterFailed "CertificateRequest",
        by simp [failSetupCertReqResult], rfl⟩
  · exact exit_policy_of_fatal rfl
      ⟨Event.healthzRegisterFailed, by simp [failHealthzResult, regEvents], rfl⟩
  · exact exit_policy_of_fatal rfl
      ⟨Event.readyzRegisterFailed, by simp [failReadyzResult, regEvents], rfl⟩
  · exact exit_policy_of_fatal rfl
      ⟨Event.managerRunFailed, by simp [failStartResult, regEvents], rfl⟩
  · exact exit_policy_of_success rfl (by simp [successResult, regEvents])
      (success_no_fatal fl ext ns mgr)

/-- Claim C5: the CertificateRequest reconciler's CheckApprovedCondition is
the negation of the disable-approved-check flag, and the flag defaults to
false, so gating is enabled by default. -/
theorem approval_gate_wiring (fl : Flags) (ext : Ext)
    (crr : CertificateRequestReconciler)
    (hr : (runMain fl ext).certificateRequestReconciler = some crr) :
    crr.CheckApprovedCondition = !fl.disableApprovedCheck
    ∧ defaultFlags.disableApprovedCheck = false
    ∧ (!defaultFlags.disableApprovedCheck) = true := by
  obtain ⟨ns, mgr, rfl⟩ := certReq_shape fl ext crr hr
  exact ⟨rfl, rfl, rfl⟩

/-- Witness for C5 at the default flags with all external calls succeeding. -/
theorem approval_gate_wiring_witness :
    (runMain defaultFlags extOk).certificateRequestReconciler =
      some (certificateRequestReconcilerOf { client := 1, scheme := 2 }
        (ConfigClient.client 7) "discovered-ns" defaultFlags)
    ∧ (certificateRequestReconcilerOf { client := 1, scheme := 2 }
        (ConfigClient.client 7) "discovered-ns" defaultFlags).CheckApprovedCondition =
        !defaultFlags.disableApprovedCheck :=
  ⟨by decide, (approval_gate_wiring defaultFlags extOk _ (by decide)).1⟩

/-- Claim C6: the same secret-access flag value and the same cluster-resource
namespace are passed to all three reconcilers, so the secret access scope is
one process-wide setting. -/
theorem secret_scope_is_process_wide (fl : Flags) (ext : Ext)
    (ir cir : IssuerReconciler) (crr : CertificateRequestReconciler)
    (hi : (runMain fl ext).issuerReconciler = some ir)
    (hc : (runMain fl ext).clusterIssuerReconciler = some cir)
    (hr : (runMain fl ext).certificateRequestReconciler = some crr) :
    ir.SecretAccessGrantedAtClusterLevel = fl.secretAccessGrantedAtClusterLevel
    ∧ cir.SecretAccessGrantedAtClusterLevel = fl.secretAccessGrantedAtClusterLevel
    ∧ crr.SecretAccessGrantedAtClusterLevel = fl.secretAccessGrantedAtClusterLevel
    ∧ ir.ClusterResourceNamespace = cir.ClusterResourceNamespace
    ∧ cir.ClusterResourceNamespace = crr.ClusterResourceNamespace := by
  obtain ⟨ns, mgr, rfl, rfl, rfl⟩ := all_reconcilers_shape fl ext ir cir crr hi hc hr
  exact ⟨rfl, rfl, rfl, rfl, rfl⟩

/-- Witness for C6 with all external calls succeeding. -/
theorem secret_scope_witness :
    (runMain defaultFlags extOk).issuerReconciler =
      some (issuerReconcilerOf { client := 1, scheme := 2 }
        (ConfigClient.client 7) "discovered-ns" defaultFlags)
    ∧ (issuerReconcilerOf { client := 1, scheme := 2 }
        (ConfigClient.client 7) "discovered-ns" defaultFlags).SecretAccessGrantedAtClusterLevel =
        defaultFlags.secretAccessGrantedAtClusterLevel :=
  ⟨by decide,
    (secret_scope_is_process_wide defaultFlags extOk
      (issuerReconcilerOf { client := 1, scheme := 2 }
        (ConfigClient.client 7) "discovered-ns" defaultFlags)
      (clusterIssuerReconcilerOf { client := 1, scheme := 2 }
        (ConfigClient.client 7) "discovered-ns" defaultFlags)
      (certificateRequestReconcilerOf { client := 1, scheme := 2 }
        (ConfigClient.client 7) "discovered-ns" defaultFlags)
      (by decide) (by decide) (by decide)).1⟩

/-- Claim C7: the metrics bind address defaults to ":8080", the health-probe
bind address to ":8081", and whatever the flag values are, they are the
addresses in the options handed to the manager. -/
theorem bind_address_wiring :
    defaultFlags.metricsAddr = ":8080"
    ∧ defaultFlags.probeAddr = ":8081"
    ∧ (∀ fl : Flags, (mgrOptions fl).Metrics.BindAddress = fl.metricsAddr
        ∧ (mgrOptions fl).HealthProbeBindAddress = fl.probeAddr)
    ∧ (∀ (fl : Flags) (ext : Ext) (ns : String),
        resolveClusterResourceNamespace fl ext = Except.ok ns →
          (runMain fl ext).managerOptionsRequested = some (mgrOptions fl)) :=
  ⟨rfl, rfl, fun _ => ⟨rfl, rfl⟩,
    fun fl ext ns h => managerOptions_requested fl ext ns h⟩

/-- Witness for C7: a concrete run whose manager options carry the flag
addresses. -/
theorem bind_address_wiring_witness :
    resolveClusterResourceNamespace defaultFlags extOk = Except.ok "discovered-ns"
    ∧ (runMain defaultFlags extOk).managerOptionsRequested =
        some (mgrOptions defaultFlags) :=
  ⟨rfl, bind_address_wiring.2.2.2 defaultFlags extOk "discovered-ns" rfl⟩

/-- Claim C8: whenever the manager is started, the healthz and readyz checks
were registered beforehand, both with the `healthz.Ping` checker, which
always succeeds and carries no reconciliation state. -/
theorem health_probes_static_ping_before_start (fl : Flags) (ext : Ext)
    (h : Event.managerStarted ∈ (runMain fl ext).events) :
    List.Sublist
      [Event.healthzCheckRegistered "healthz" Checker.ping,
       Event.readyzCheckRegistered "readyz" Checker.ping,
       Event.managerStarted]
      (runMain fl ext).events
    ∧ (∀ u : Unit, runChecker Checker.ping u = none) := by
  refine ⟨?_, fun u => rfl⟩
  rcases runMain_cases fl ext with ⟨e, hres, hrm⟩ |
    ⟨ns, hres, ⟨e, hmgr, hrm⟩ | ⟨mgr, hmgr, hrm | hrm | hrm | hrm | hrm | hrm | hrm⟩⟩ <;>
    rw [hrm] at h ⊢
  · simp [failNsResult] at h
  · simp [failMgrResult] at h
    exact absurd h (managerStarted_not_mem_preEvents fl ext ns)
  · simp [failSetupIssuerResult] at h
    exact absurd h (managerStarted_not_mem_preEvents fl ext ns)
  · simp [failSetupClusterIssuerResult] at h
    exact absurd h (managerStarted_not_mem_preEvents fl ext ns)
  · simp [failSetupCertReqResult] at h
    exact absurd h (managerStarted_not_mem_preEvents fl ext ns)
  · simp [failHealthzResult, regEvents] at h
    exact absurd h (managerStarted_not_mem_preEvents fl ext ns)
  · simp [failReadyzResult, regEvents] at h
    exact absurd h (managerStarted_not_mem_preEvents fl ext ns)
  · simp only [failStartResult]
    exact List.Sublist.trans
      (List.Sublist.cons₂ _ (List.Sublist.cons₂ _ (List.Sublist.cons₂ _
        (List.nil_sublist _))))
      (List.sublist_append_right _ _)
  · simp only [successResult]
    exact List.sublist_append_right _ _

/-- Witness for C8: a concrete graceful run. -/
theorem health_probes_witness :
    Event.managerStarted ∈ (runMain defaultFlags extOk).events
    ∧ List.Sublist
        [Event.healthzCheckRegistered "healthz" Checker.ping,
         Event.readyzCheckRegistered "readyz" Checker.ping,
         Event.managerStarted]
        (runMain defaultFlags extOk).events :=
  ⟨by decide,
    (health_probes_static_ping_before_start defaultFlags extOk (by decide)).1⟩

/-- Claim C9: a config-client construction failure is only logged: startup
proceeds to manager construction, and the zero-valued (nil) config client is
injected into all three reconcilers. -/
theorem config_client_error_only_logged (fl : Flags) (ext : Ext)
    (ns : String) (e : String)
    (hns : resolveClusterResourceNamespace fl ext = Except.ok ns)
    (hcc : ext.newConfigClient = Except.error e) :
    configClientOf ext = ConfigClient.nilClient
    ∧ Event.configClientError ∈ preEvents fl ext ns
    ∧ (runMain fl ext).managerOptionsRequested = some (mgrOptions fl)
    ∧ (∀ ir, (runMain fl ext).issuerReconciler = some ir →
        ir.ConfigClient = ConfigClient.nilClient)
    ∧ (∀ cir, (runMain fl ext).clusterIssuerReconciler = some cir →
        cir.ConfigClient = ConfigClient.nilClient)
    ∧ (∀ crr, (runMain fl ext).certificateRequestReconciler = some crr →
        crr.ConfigClient = ConfigClient.nilClient) := by
  have hnil : configClientOf ext = ConfigClient.nilClient := by
    simp [configClientOf, hcc]
  refine ⟨hnil, ?_, managerOptions_requested fl ext ns hns, ?_, ?_, ?_⟩
  · simp [preEvents, ccEventsOf, hcc]
  · intro ir hi
    obtain ⟨ns', mgr, rfl⟩ := issuer_shape fl ext ir hi
    exact hnil
  · intro cir hc
    obtain ⟨ns', mgr, rfl⟩ := clusterIssuer_shape fl ext cir hc
    exact hnil
  · intro crr hr
    obtain ⟨ns', mgr, rfl⟩ := certReq_shape fl ext crr hr
    exact hnil

/-- Witness for C9: a run where only config-client construction fails. -/
theorem config_client_error_witness :
    resolveClusterResourceNamespace defaultFlags extCcFail =
      Except.ok "discovered-ns"
    ∧ extCcFail.newConfigClient = Except.error "connection refused"
    ∧ configClientOf extCcFail = ConfigClient.nilClient
    ∧ (runMain defaultFlags extCcFail).managerOptionsRequested =
        some (mgrOptions defaultFlags) := by
  have h := config_client_error_only_logged defaultFlags extCcFail
    "discovered-ns" "connection refused" rfl rfl
  exact ⟨rfl, rfl, h.1, h.2.2.1⟩

/-- Claim C10: the Issuer and ClusterIssuer reconcilers built by `main` agree
on every field except Kind, which is "Issuer" for one and "ClusterIssuer"
for the other. -/
theorem issuer_and_cluster_issuer_differ_only_in_kind (fl : Flags) (ext : Ext)
    (ir cir : IssuerReconciler)
    (hi : (runMain fl ext).issuerReconciler = some ir)
    (hc : (runMain fl ext).clusterIssuerReconciler = some cir) :
    ir.Kind = "Issuer"
    ∧ cir.Kind = "ClusterIssuer"
    ∧ ir.Client = cir.Client
    ∧ ir.ConfigClient = cir.ConfigClient
    ∧ ir.Scheme = cir.Scheme
    ∧ ir.ClusterResourceNamespace = cir.ClusterResourceNamespace
    ∧ ir.SecretAccessGrantedAtClusterLevel = cir.SecretAccessGrantedAtClusterLevel
    ∧ ir.HealthCheckerBuilder = cir.HealthCheckerBuilder
    ∧ { cir with Kind := "Issuer" } = ir := by
  obtain ⟨ns, mgr, rfl, rfl⟩ := reconcilers_shape fl ext ir cir hi hc
  exact ⟨rfl, rfl, rfl, rfl, rfl, rfl, rfl, rfl, rfl⟩

/-- Witness for C10 with all external calls succeeding. -/
theorem issuer_twins_witness :
    (runMain defaultFlags extOk).issuerReconciler =
      some (issuerReconcilerOf { client := 1, scheme := 2 }
        (ConfigClient.client 7) "discovered-ns" defaultFlags)
    ∧ (issuerReconcilerOf { client := 1, scheme := 2 }
        (ConfigClient.client 7) "discovered-ns" defaultFlags).Kind = "Issuer"
    ∧ (clusterIssuerReconcilerOf { client := 1, scheme := 2 }
        (ConfigClient.client 7) "discovered-ns" defaultFlags).Kind = "ClusterIssuer" := by
  have h := issuer_and_cluster_issuer_differ_only_in_kind defaultFlags extOk
    (issuerReconcilerOf { client := 1, scheme := 2 }
      (ConfigClient.client 7) "discovered-ns" defaultFlags)
    (clusterIssuerReconcilerOf { client := 1, scheme := 2 }
      (ConfigClient.client 7) "discovered-ns" defaultFlags)
    (by decide) (by decide)
  exact ⟨by decide, h.1, h.2.1⟩

end CommandIssuer
